import Mathlib

/-
Verification development for the `drawer` repository (davidfig/drawer).

`src/src/drawer.js` contains two variants of the Drawer class: the first
(dom-ease based, lines 1-424) and the second (Penner based, lines 425-959).
The gesture and release logic is shallowly embedded below.  Positions are
rationals (JS numbers on the inputs exercised here stay exact), timestamps
are integers (moment() millisecond diffs).  The one place JS floating-point
semantics cannot be mapped into ℚ is a division whose divisor is zero
(JS yields NaN or ±Infinity); the embedding flags that case explicitly with
the `UpCmd.nonFinite` marker instead of inventing a rational value.

DOM reads are modelled as state fields kept in sync with the style writes
the code performs: `divPos` is the numeric value last written to
`div.style[side]` (what `_getCurrent` reads back via offsetLeft etc.), and
`offsetWidth` is the div's layout width, which is constant during a
gesture and equals `size` for an explicitly sized drawer
(`div.style.width = size + 'px'`).
-/

namespace Drawer

/-- The `side` option: left, right, top or bottom. -/
inductive Side where
  | left
  | right
  | top
  | bottom
deriving DecidableEq

/-- Source: `this.vertical = value === 'left' || value === 'right'` (side setter). -/
def Side.vertical : Side → Bool
  | Side.left => true
  | Side.right => true
  | Side.top => false
  | Side.bottom => false

/-- One entry of `this.changes`: `{ value, time: moment() }`. -/
structure Sample where
  value : ℚ
  time : ℤ
deriving DecidableEq

/-- Variant 2 animation job: `this.easing = { start, end, time, ease, duration }`;
the `ease` field is `Penner.linear` when a velocity was given and the configured
ease otherwise, modelled by the boolean `linearEase`. -/
structure EasingJob where
  start : ℚ
  stop : ℚ
  time : ℤ
  linearEase : Bool
  duration : ℚ
deriving DecidableEq

/-- The drawer state: configuration fields, environment reads
(`innerWidth`, `innerHeight`, `offsetWidth`), and the mutable fields
(`opened`, `down`, `moving`, `changes`, the style positions and the
animation job). -/
structure DrawerState where
  side : Side
  size : ℚ
  barSize : ℚ
  threshold : ℚ
  timeRecent : ℤ
  minVelocity : ℚ
  duration : ℚ
  auto : Bool
  innerWidth : ℚ
  innerHeight : ℚ
  offsetWidth : ℚ
  opened : Bool
  down : Option (ℚ × ℚ)
  moving : Bool
  changes : List Sample
  divPos : ℚ
  barPos : ℚ
  easing : Option EasingJob
deriving DecidableEq

/-- Source `_down(e)` (both variants, lines 203-213 and 684-694):
unconditionally records the anchor, clears the trail and resets `moving`. -/
def downStep (s : DrawerState) (x y : ℚ) : DrawerState :=
  { s with down := some (x, y), changes := [], moving := false }

/-- Source `_checkThreshold(e)` (both variants): once moving, stays true;
otherwise compares the primary-axis displacement from the anchor against
`threshold`, setting `moving` when reached. -/
def checkThreshold (s : DrawerState) (dx dy x y : ℚ) : Bool × DrawerState :=
  if s.moving then (true, s)
  else
    if s.side = Side.left ∨ s.side = Side.right then
      if |x - dx| ≥ s.threshold then (true, { s with moving := true }) else (false, s)
    else
      if |y - dy| ≥ s.threshold then (true, { s with moving := true }) else (false, s)

/-- Source `_move(e)` (variant 2, lines 731-765; variant 1 lines 250-265 is the
left/right sub-case): guarded by `this.down && this._checkThreshold(e)`; computes
the bar position from the pointer, clamps it to `[0, size]` (first capping above
at `size`, then below at `0`), writes `div.style[side] = value - size` and
`bar.style[side] = value`, and appends the timestamped sample. -/
def moveStep (s : DrawerState) (x y : ℚ) (t : ℤ) : DrawerState :=
  match s.down with
  | none => s
  | some (dx, dy) =>
    let r := checkThreshold s dx dy x y
    if r.1 then
      let value :=
        if r.2.side.vertical then
          if r.2.side = Side.left then x - r.2.barSize / 2
          else r.2.innerWidth - x + r.2.barSize / 2
        else
          if r.2.side = Side.top then y - r.2.barSize / 2
          else r.2.innerHeight - y + r.2.barSize / 2
      let value1 := if value > r.2.size then r.2.size else value
      let value2 := if value1 < 0 then 0 else value1
      { r.2 with divPos := value2 - r.2.size, barPos := value2,
                 changes := r.2.changes ++ [⟨value2, t⟩] }
    else r.2

/-- Folds a list of pointer-move events `(x, y, t)` through `moveStep`. -/
def movesStep (s : DrawerState) : List (ℚ × ℚ × ℤ) → DrawerState
  | [] => s
  | m :: rest => movesStep (moveStep s m.1 m.2.1 m.2.2) rest

/-- Displacement from the anchor along the orientation's primary axis, as
`_checkThreshold` measures it. -/
def primaryDisp (side : Side) (dx dy x y : ℚ) : ℚ :=
  if side = Side.left ∨ side = Side.right then |x - dx| else |y - dy|

/-- Source backward walk of `_getVelocity` (variant 2, lines 770-782) and the
identical inline loop in variant 1's `_up` (lines 280-292), expressed over the
reversed initial segment of `changes`: starting from `current = last`, a sample
within the `timeRecent` window replaces `current` and the walk continues; the
first sample strictly older than the window stops the walk. -/
def velocityScan (now timeRecent : ℤ) : List Sample → Sample → Sample
  | [], current => current
  | s :: rest, current =>
    if now - s.time > timeRecent then current
    else velocityScan now timeRecent rest s

/-- The comparison sample `current` chosen by variant 2's `_getVelocity`,
given `last = changes[changes.length - 1]`. -/
def selectCurrent (changes : List Sample) (now timeRecent : ℤ) (last : Sample) : Sample :=
  velocityScan now timeRecent changes.dropLast.reverse last

/-- Variant 2 `_getVelocity` (lines 767-787) up to the final division:
returns `(deltaDistance, deltaTime) = (current.value - last.value,
current.time.diff(last.time))`.  The caller (`_up`) only invokes this with
`changes.length > 2`; the empty-trail default is never reached there. -/
def getVelocityParts (changes : List Sample) (now timeRecent : ℤ) : ℚ × ℤ :=
  match changes.getLast? with
  | none => (0, 0)
  | some last =>
    ((selectCurrent changes now timeRecent last).value - last.value,
     ((selectCurrent changes now timeRecent last).time - last.time : ℤ))

/-- Variant 1's inline copy of the backward walk (`_up`, lines 281-292),
transcribed separately from the variant 1 source text. -/
def velocityScanInline (now timeRecent : ℤ) : List Sample → Sample → Sample
  | [], current => current
  | s :: rest, current =>
    if now - s.time > timeRecent then current
    else velocityScanInline now timeRecent rest s

/-- Variant 1's inline comparison-sample selection (`_up`, lines 280-292). -/
def selectCurrentInline (changes : List Sample) (now timeRecent : ℤ) (last : Sample) : Sample :=
  velocityScanInline now timeRecent changes.dropLast.reverse last

/-- Variant 1's inline `(deltaDistance, deltaTime)` computation
(`_up`, lines 293-296), transcribed separately from the variant 1 source text. -/
def getVelocityPartsInline (changes : List Sample) (now timeRecent : ℤ) : ℚ × ℤ :=
  match changes.getLast? with
  | none => (0, 0)
  | some last =>
    ((selectCurrentInline changes now timeRecent last).value - last.value,
     ((selectCurrentInline changes now timeRecent last).time - last.time : ℤ))

/-- JS truthiness of the optional `velocity` argument of `_openAnimate` /
`_closeAnimate`: `undefined` and `0` are falsy. -/
def jsTruthy : Option ℚ → Bool
  | some v => if v = 0 then false else true
  | none => false

/-- Variant 2 `_getCurrent()` (lines 893-906): reads the div's current offset
for the active side.  Under the fixed-position layout each of the four offset
expressions evaluates to the value last written to `div.style[side]`, which the
embedding tracks in `divPos`. -/
def getCurrent (s : DrawerState) : ℚ := s.divPos

/-- Variant 2 `_openAnimate(velocity)` (lines 885-891): builds the easing job
`{ start: _getCurrent(), end: 0, time: now, ease: velocity ? linear : ease,
duration: velocity ? Math.abs(0 - size) / velocity : duration }`. -/
def openAnimateStep (s : DrawerState) (velocity : Option ℚ) (now : ℤ) : DrawerState :=
  let dur :=
    match velocity with
    | some v => if v = 0 then s.duration else |0 - s.size| / v
    | none => s.duration
  { s with easing := some ⟨getCurrent s, 0, now, jsTruthy velocity, dur⟩ }

/-- Variant 1 `_openAnimate(velocity)` duration (line 386):
`velocity ? Math.abs(0 - this.div.offsetWidth) / velocity : this.duration`. -/
def openAnimateDuration1 (offsetWidth duration : ℚ) (velocity : Option ℚ) : ℚ :=
  match velocity with
  | some v => if v = 0 then duration else |0 - offsetWidth| / v
  | none => duration

/-- Variant 2 `_closeAnimate(velocity)` (lines 930-936): builds the easing job
toward `-size` with duration `velocity ? Math.abs((start - size) / velocity)
: duration`. -/
def closeAnimateStep (s : DrawerState) (velocity : Option ℚ) (now : ℤ) : DrawerState :=
  let start := getCurrent s
  let dur :=
    match velocity with
    | some v => if v = 0 then s.duration else |(start - s.size) / v|
    | none => s.duration
  { s with easing := some ⟨start, -s.size, now, jsTruthy velocity, dur⟩ }

/-- Source `open(noAnimate)` (variant 2, lines 867-883; variant 1, lines
362-378, has the same guard): guarded by `this.down || !this.opened`; clears
the animation job, either snaps the styles (`noAnimate`) or starts
`_openAnimate()` with no velocity, then sets `opened = true`. -/
def openStep (s : DrawerState) (noAnimate : Bool) (now : ℤ) : DrawerState :=
  if s.down.isSome || !s.opened then
    let s1 : DrawerState := { s with easing := none }
    let s2 := if noAnimate then { s1 with divPos := 0, barPos := s1.size }
              else openAnimateStep s1 none now
    { s2 with opened := true }
  else s

/-- Source `close(noAnimate)` (variant 2, lines 912-928): guarded by
`this.down || this.opened`; mirror image of `open`. -/
def closeStep (s : DrawerState) (noAnimate : Bool) (now : ℤ) : DrawerState :=
  if s.down.isSome || s.opened then
    let s1 : DrawerState := { s with easing := none }
    let s2 := if noAnimate then { s1 with divPos := -s1.size, barPos := 0 }
              else closeAnimateStep s1 none now
    { s2 with opened := false }
  else s

/-- Source `toggle(noAnimate)` (both variants): close if opened, open if not. -/
def toggleStep (s : DrawerState) (noAnimate : Bool) (now : ℤ) : DrawerState :=
  if s.opened then closeStep s noAnimate now else openStep s noAnimate now

/-- Source `_forceToggle()` (both variants, lines 330-340 and 835-845):
`if (this.div.offsetWidth > this.size / 2) this.open(); else this.close()`.
Note the comparison reads the div's layout width, not its position. -/
def forceToggleStep (s : DrawerState) (now : ℤ) : DrawerState :=
  if s.offsetWidth > s.size / 2 then openStep s false now else closeStep s false now

/-- Variant 1 minimum-velocity clamp (`_up`, lines 303-306):
`if (Math.abs(velocity) < this.minVelocity) velocity = this.minVelocity *
(velocity < 0)` — the comparison is coerced to a number (1 when true, 0 when
false). -/
def clampVelocity1 (minVelocity v : ℚ) : ℚ :=
  if |v| < minVelocity then minVelocity * (if v < 0 then 1 else 0) else v

/-- Variant 2 minimum-velocity clamp (`_up`, lines 808-811):
`velocity = this.minVelocity * (velocity < 0 ? -1 : 1)`. -/
def clampVelocity2 (minVelocity v : ℚ) : ℚ :=
  if |v| < minVelocity then minVelocity * (if v < 0 then -1 else 1) else v

/-- The command a release decides on; `nonFinite` marks the unguarded
zero-elapsed-time division, where JS would produce NaN (when `deltaDistance`
is also 0) or ±Infinity. -/
inductive UpCmd where
  | idle
  | toggle
  | forceToggle
  | nonFinite (deltaDistance : ℚ)
  | openAnim (v : ℚ)
  | closeAnim (v : ℚ)
deriving DecidableEq

/-- Variant 1 release decision on a finite computed velocity (`_up`, lines
297-315): force-toggle at exactly zero, otherwise clamp (boolean-coercion
variant) and dispatch on the sign of the clamped value. -/
def upDecision1 (minVelocity v : ℚ) : UpCmd :=
  if v = 0 then UpCmd.forceToggle
  else
    let v1 := clampVelocity1 minVelocity v
    if v1 > 0 then UpCmd.openAnim v1 else UpCmd.closeAnim v1

/-- Variant 2 release decision on a finite computed velocity (`_up`, lines
802-820): force-toggle at exactly zero, otherwise clamp (sign-preserving
variant) and dispatch on the sign of the clamped value. -/
def upDecision2 (minVelocity v : ℚ) : UpCmd :=
  if v = 0 then UpCmd.forceToggle
  else
    let v1 := clampVelocity2 minVelocity v
    if v1 > 0 then UpCmd.openAnim v1 else UpCmd.closeAnim v1

/-- The command variant 2's `_up` (lines 789-833) emits: nothing without an
active press; a toggle when the threshold was never crossed; otherwise, only
when `auto` is set, either the velocity decision (more than 2 samples) or a
force-toggle. -/
def upCmd (s : DrawerState) (now : ℤ) : UpCmd :=
  match s.down with
  | none => UpCmd.idle
  | some _ =>
    if !s.moving then UpCmd.toggle
    else if s.auto then
      if s.changes.length > 2 then
        let p := getVelocityParts s.changes now s.timeRecent
        if p.2 = 0 then UpCmd.nonFinite p.1
        else upDecision2 s.minVelocity (p.1 / (p.2 : ℚ))
      else UpCmd.forceToggle
    else UpCmd.idle

/-- Applies the decided command to the state, exactly as `_up` dispatches:
`toggle()`, `_forceToggle()`, `_openAnimate(velocity)` or
`_closeAnimate(velocity)` (the animate calls go to the helpers directly, not
through `open`/`close`).  The `nonFinite` case is left frozen: JS would feed
a NaN/±Infinity velocity onward, which has no rational image. -/
def applyUpCmd (s : DrawerState) (cmd : UpCmd) (now : ℤ) : DrawerState :=
  match cmd with
  | UpCmd.idle => s
  | UpCmd.toggle => toggleStep s false now
  | UpCmd.forceToggle => forceToggleStep s now
  | UpCmd.nonFinite _ => s
  | UpCmd.openAnim v => openAnimateStep s (some v) now
  | UpCmd.closeAnim v => closeAnimateStep s (some v) now

/-- Variant 2 `_up()` as a state transition: with an active press, dispatch
the decided command and finally set `this.down = false`. -/
def upStep (s : DrawerState) (now : ℤ) : DrawerState :=
  match s.down with
  | none => s
  | some _ => { applyUpCmd s (upCmd s now) now with down := none }

/-- Spec-side clamp (§8 scenario: `clamp(20 − barSize/2 − size, -size, 0)`). -/
def specClamp (lo hi x : ℚ) : ℚ := max lo (min hi x)

/-- Spec-side fling duration (§4.2): `|distance remaining to target| /
|velocity|`. -/
def specFlingDuration (location target v : ℚ) : ℚ := |target - location| / |v|

/-- Spec-side force-toggle decision (§4.1, glossary): open iff the drawer is
currently more than half open, i.e. its visible extent `location + size`
exceeds `size / 2`. -/
def specForceToggleOpens (location size : ℚ) : Bool :=
  decide (location + size > size / 2)

/-! Concrete drawer states used to instantiate the claims: a left-side drawer
with explicit `size := 100` (so `div.style.width = 100px` and the layout width
`offsetWidth` equals 100), the default `barSize := 20`, `threshold := 10`,
`timeRecent := 100`, default `duration := 500` and variant 2's default
`minVelocity := 1/2`. -/

def baseState : DrawerState :=
  { side := Side.left, size := 100, barSize := 20, threshold := 10, timeRecent := 100,
    minVelocity := 1/2, duration := 500, auto := true, innerWidth := 1000, innerHeight := 800,
    offsetWidth := 100, opened := false, down := none, moving := false, changes := [],
    divPos := -100, barPos := 0, easing := none }

/-- Mid-drag release state for C2: the drawer is 60 px open (location -40). -/
def c2state : DrawerState :=
  { baseState with divPos := -40, barPos := 60, down := some (0, 0), moving := true }

/-- Release state for C3: three samples, the two older-than-last ones at
timestamps 100 and 300, released at time 300 — the comparison sample shares
the last sample's timestamp. -/
def c3state : DrawerState :=
  { baseState with down := some (0, 0), moving := true,
                   changes := [⟨0, 100⟩, ⟨10, 300⟩, ⟨20, 300⟩] }

/-- Release state for C4: a confirmed drag that recorded only 2 samples, with
the drawer dragged nearly closed (location -99, i.e. 1 px open). -/
def c4state : DrawerState :=
  { baseState with divPos := -99, barPos := 1, down := some (0, 0), moving := true,
                   changes := [⟨1, 0⟩, ⟨1, 5⟩] }

/-- Mid-drag state for C5's witness. -/
def c5state : DrawerState :=
  { baseState with down := some (0, 0), moving := true }

/-- Tracking state for C7: an active press anchored at (10, 20) with one
recorded sample and a confirmed drag. -/
def c7state : DrawerState :=
  { baseState with down := some (10, 20), moving := true, changes := [⟨5, 1⟩] }

/-- Tap state for C8: `auto := false`, press active, threshold never crossed. -/
def c8tapState : DrawerState :=
  { baseState with auto := false, down := some (0, 0), moving := false }

/-- Drag-release state for C8: `auto := false`, confirmed drag, 3 samples. -/
def c8dragState : DrawerState :=
  { baseState with auto := false, down := some (0, 0), moving := true,
                   changes := [⟨10, 0⟩, ⟨20, 5⟩, ⟨30, 10⟩] }

/-- Settled open state for C9: opened, no active press. -/
def c9state : DrawerState :=
  { baseState with opened := true, divPos := 0, barPos := 100 }

/-! The claims. -/

/-- C1: variant 1's minimum-velocity clamp multiplies `minVelocity` by the
boolean-to-number coercion of `velocity < 0`, so a small positive velocity
(slow drag toward the open edge) becomes `0` and dispatches
`_closeAnimate(0)`, and a small negative velocity becomes `+minVelocity` and
dispatches `_openAnimate` — neither keeps the sign with magnitude
`minVelocity`.  Variant 2's clamp (`velocity < 0 ? -1 : 1`) behaves as the
claim states.  Evaluated at velocity ±1/200 with `minVelocity = 1/100`. -/
theorem c1_variant1_clamp_drops_sign :
    upDecision1 (1/100) (1/200) = UpCmd.closeAnim 0 ∧
    upDecision1 (1/100) (-(1/200)) = UpCmd.openAnim (1/100) ∧
    upDecision2 (1/100) (1/200) = UpCmd.openAnim (1/100) ∧
    upDecision2 (1/100) (-(1/200)) = UpCmd.closeAnim (-(1/100)) := by
  refine ⟨?_, ?_, ?_, ?_⟩ <;>
    norm_num [upDecision1, upDecision2, clampVelocity1, clampVelocity2, abs_of_pos, abs_neg]

/-- C2 counterexample: at location -40 of a size-100 drawer, a fling-open at
velocity 4/5 starts a job whose duration is `|0 - size| / v = 125`, not the
remaining-distance duration `|0 - (-40)| / (4/5) = 50` the claim (and spec
§8's scenario) require. -/
theorem c2_counterexample :
    (openAnimateStep c2state (some (4/5)) 0).easing.map EasingJob.duration = some 125 ∧
    specFlingDuration (getCurrent c2state) 0 (4/5) = 50 ∧
    (openAnimateStep c2state (some (4/5)) 0).easing.map EasingJob.duration ≠
      some (specFlingDuration (getCurrent c2state) 0 (4/5)) := by
  refine ⟨?_, ?_, ?_⟩ <;>
    norm_num [openAnimateStep, specFlingDuration, getCurrent, c2state, baseState,
      abs_of_pos, abs_neg]

/-- C2 amended: the fling-open duration is the drawer's full open `size`
divided by the velocity — independent of the current location (variant 1
divides `div.offsetWidth`, which equals `size` for an explicitly sized
drawer) — and therefore doubling the velocity still halves the duration. -/
theorem c2_open_fling_duration (s : DrawerState) (v : ℚ) (now : ℤ)
    (hv : 0 < v) (hs : 0 ≤ s.size) :
    (openAnimateStep s (some v) now).easing.map EasingJob.duration = some (s.size / v) ∧
    (openAnimateStep s (some (2 * v)) now).easing.map EasingJob.duration =
      some (s.size / v / 2) ∧
    openAnimateDuration1 s.size s.duration (some v) = s.size / v := by
  have hv1 : v ≠ 0 := ne_of_gt hv
  have hv2 : (2 : ℚ) * v ≠ 0 := by positivity
  refine ⟨?_, ?_, ?_⟩
  · simp [openAnimateStep, hv1, abs_of_nonneg hs]
  · simp only [openAnimateStep, if_neg hv2, Option.map_some']
    rw [zero_sub, abs_neg, abs_of_nonneg hs, div_div, mul_comm]
  · simp [openAnimateDuration1, hv1, abs_of_nonneg hs]

/-- C2 witness: the amended statement instantiated at `c2state` and
velocity 4/5. -/
theorem c2_open_fling_duration_witness :
    (0 : ℚ) < 4/5 ∧ (0 : ℚ) ≤ c2state.size ∧
    ((openAnimateStep c2state (some (4/5)) 0).easing.map EasingJob.duration =
        some (c2state.size / (4/5)) ∧
      (openAnimateStep c2state (some (2 * (4/5))) 0).easing.map EasingJob.duration =
        some (c2state.size / (4/5) / 2) ∧
      openAnimateDuration1 c2state.size c2state.duration (some (4/5)) =
        c2state.size / (4/5)) :=
  ⟨by norm_num, by norm_num [c2state, baseState],
   c2_open_fling_duration c2state (4/5) 0 (by norm_num) (by norm_num [c2state, baseState])⟩

/-- Helper: the backward walk stops immediately (keeping `current`) when every
remaining sample is strictly older than the recency window — it only ever
looks at the first one. -/
theorem velocityScan_stale (now tr : ℤ) (L : List Sample) (cur : Sample)
    (h : ∀ u ∈ L, now - u.time > tr) : velocityScan now tr L cur = cur := by
  cases L with
  | nil => rfl
  | cons u rest =>
    rw [velocityScan, if_pos (h u (by simp))]

/-- C3 counterexample: with trail `[(0,100), (10,300), (20,300)]`, release at
time 300 and `timeRecent = 100`, the walk selects `current = (10, 300)`,
whose timestamp equals the last sample's, so the dividend pair has zero
elapsed time and the JS division `(-10) / 0` is `-Infinity` — the pair is
not skipped. -/
theorem c3_zero_elapsed_pair_used :
    selectCurrent [⟨0, 100⟩, ⟨10, 300⟩, ⟨20, 300⟩] 300 100 ⟨20, 300⟩ = ⟨10, 300⟩ ∧
    getVelocityParts [⟨0, 100⟩, ⟨10, 300⟩, ⟨20, 300⟩] 300 100 = (-10, 0) ∧
    upCmd c3state 300 = UpCmd.nonFinite (-10) := by
  refine ⟨?_, ?_, ?_⟩ <;>
    norm_num [selectCurrent, velocityScan, getVelocityParts, upCmd, c3state, baseState,
      List.dropLast, List.getLast?]

/-- C3 amended: the release-velocity computation never skips a
zero-elapsed-time pair.  Whenever the sample before the last one is within
the `timeRecent` window but shares the last sample's timestamp (all earlier
samples being strictly older than the window), that pair is used as the
dividend pair: the computed `(deltaDistance, deltaTime)` is
`(a.value - b.value, 0)`, i.e. JS divides by zero and yields NaN or
±Infinity. -/
theorem c3_no_zero_elapsed_guard (l : List Sample) (a b : Sample) (now timeRecent : ℤ)
    (hl : ∀ u ∈ l, now - u.time > timeRecent)
    (ha : now - a.time ≤ timeRecent) (hab : a.time = b.time) :
    getVelocityParts (l ++ [a, b]) now timeRecent = (a.value - b.value, 0) := by
  have hcat : l ++ [a, b] = (l ++ [a]) ++ [b] := by simp
  have hlast : (l ++ [a, b]).getLast? = some b := by
    rw [hcat]; exact List.getLast?_concat _
  have hdrop : (l ++ [a, b]).dropLast = l ++ [a] := by
    rw [hcat, List.dropLast_concat]
  have hsel : selectCurrent (l ++ [a, b]) now timeRecent b = a := by
    rw [selectCurrent, hdrop, List.reverse_append, List.reverse_singleton,
      List.singleton_append, velocityScan, if_neg (not_lt.mpr ha)]
    exact velocityScan_stale now timeRecent l.reverse a
      (fun u hu => hl u (List.mem_reverse.mp hu))
  simp only [getVelocityParts, hlast]
  rw [hsel, hab, sub_self]

/-- C3 witness: the amended statement instantiated at the counterexample
trail. -/
theorem c3_no_zero_elapsed_guard_witness :
    (∀ u ∈ [(⟨0, 100⟩ : Sample)], (300 : ℤ) - u.time > 100) ∧
    (300 : ℤ) - (⟨10, 300⟩ : Sample).time ≤ 100 ∧
    getVelocityParts ([⟨0, 100⟩] ++ [⟨10, 300⟩, ⟨20, 300⟩]) 300 100 = (-10, 0) :=
  ⟨by norm_num, by norm_num,
   by have h := c3_no_zero_elapsed_guard [⟨0, 100⟩] ⟨10, 300⟩ ⟨20, 300⟩ 300 100
        (by norm_num) (by norm_num) rfl
      exact h.trans (by norm_num)⟩

/-- C4: a release of a confirmed drag with only 2 recorded samples takes the
force-toggle branch, but `_forceToggle` compares `div.offsetWidth` — the
div's constant layout width, equal to `size` — against `size / 2`, so it
opens even though the drawer sits at location -99 (1 px open out of 100),
where the claim's location-vs-half rule says close. -/
theorem c4_force_toggle_ignores_location :
    c4state.changes.length < 3 ∧
    upCmd c4state 10 = UpCmd.forceToggle ∧
    (upStep c4state 10).opened = true ∧
    specForceToggleOpens c4state.divPos c4state.size = false := by
  refine ⟨by norm_num [c4state, baseState], ?_, ?_, ?_⟩ <;>
    norm_num [upCmd, upStep, applyUpCmd, forceToggleStep, openStep, closeStep,
      openAnimateStep, closeAnimateStep, getCurrent, specForceToggleOpens,
      c4state, baseState]

/-- Helper: the source's two-step cap (`first cap above at size, then below at
0`) followed by the shift by `-size` equals the spec's single clamp into
`[-size, 0]` of the shifted value, for nonnegative size. -/
theorem capShift_eq_specClamp (size w : ℚ) (hs : 0 ≤ size) :
    (if (if w > size then size else w) < 0 then 0 else if w > size then size else w) - size
      = specClamp (-size) 0 (w - size) := by
  unfold specClamp
  rcases lt_or_le size w with h1 | h1
  · rw [if_pos h1, if_neg (not_lt.mpr hs)]
    rw [min_eq_left (by linarith), max_eq_right (by linarith)]
    ring
  · rw [if_neg (not_lt.mpr h1)]
    rcases lt_or_le w 0 with h2 | h2
    · rw [if_pos h2, min_eq_right (by linarith), max_eq_left (by linarith)]
      ring
    · rw [if_neg (not_lt.mpr h2), min_eq_right (by linarith), max_eq_right (by linarith)]

/-- C5: during a confirmed drag on a left-side drawer, each pointer move sets
the location (`div.style.left`) to `clamp(pointerX - barSize/2 - size, -size,
0)`, which always lies in `[-size, 0]`. -/
theorem c5_move_clamps_location (s : DrawerState) (ax ay x y : ℚ) (t : ℤ)
    (hside : s.side = Side.left) (hdown : s.down = some (ax, ay))
    (hmoving : s.moving = true) (hs : 0 ≤ s.size) :
    (moveStep s x y t).divPos = specClamp (-s.size) 0 (x - s.barSize / 2 - s.size) ∧
    -s.size ≤ (moveStep s x y t).divPos ∧ (moveStep s x y t).divPos ≤ 0 := by
  have hmove : (moveStep s x y t).divPos =
      (if (if x - s.barSize / 2 > s.size then s.size else x - s.barSize / 2) < 0 then 0
        else if x - s.barSize / 2 > s.size then s.size else x - s.barSize / 2) - s.size := by
    simp [moveStep, hdown, checkThreshold, hmoving, hside, Side.vertical]
  have hclamp := capShift_eq_specClamp s.size (x - s.barSize / 2) hs
  refine ⟨hmove.trans hclamp, ?_, ?_⟩
  · rw [hmove, hclamp]; exact le_max_left _ _
  · rw [hmove, hclamp]
    exact max_le (by linarith) (min_le_left _ _)

/-- C5 witness: the statement instantiated at `c5state` with a pointer move to
x = 20 (location becomes `clamp(20 - 10 - 100, -100, 0) = -90`). -/
theorem c5_move_clamps_location_witness :
    c5state.side = Side.left ∧ c5state.down = some (0, 0) ∧ c5state.moving = true ∧
    (0 : ℚ) ≤ c5state.size ∧
    ((moveStep c5state 20 0 20).divPos =
        specClamp (-c5state.size) 0 (20 - c5state.barSize / 2 - c5state.size) ∧
      -c5state.size ≤ (moveStep c5state 20 0 20).divPos ∧
      (moveStep c5state 20 0 20).divPos ≤ 0) :=
  ⟨rfl, rfl, rfl, by norm_num [c5state, baseState],
   c5_move_clamps_location c5state 0 0 20 0 20 rfl rfl rfl (by norm_num [c5state, baseState])⟩

/-- Helper: a pointer move whose primary-axis displacement from the anchor is
below the threshold, on a press that has not yet confirmed a drag, leaves the
state untouched. -/
theorem moveStep_subthreshold (s : DrawerState) (ax ay x y : ℚ) (t : ℤ)
    (hdown : s.down = some (ax, ay)) (hmoving : s.moving = false)
    (hdisp : primaryDisp s.side ax ay x y < s.threshold) :
    moveStep s x y t = s := by
  have hct : checkThreshold s ax ay x y = (false, s) := by
    rw [checkThreshold, hmoving]
    rw [primaryDisp] at hdisp
    simp only [Bool.false_eq_true, if_false]
    split_ifs with h1 h2 h3
    · rw [if_pos h1] at hdisp; exact absurd h2 (not_le.mpr hdisp)
    · rfl
    · rw [if_neg h1] at hdisp; exact absurd h3 (not_le.mpr hdisp)
    · rfl
  simp [moveStep, hdown, hct]

/-- Helper: a whole list of sub-threshold moves leaves the state untouched. -/
theorem movesStep_subthreshold (s : DrawerState) (ax ay : ℚ)
    (moves : List (ℚ × ℚ × ℤ))
    (hdown : s.down = some (ax, ay)) (hmoving : s.moving = false)
    (hmoves : ∀ mv ∈ moves, primaryDisp s.side ax ay mv.1 mv.2.1 < s.threshold) :
    movesStep s moves = s := by
  induction moves with
  | nil => rfl
  | cons mv rest ih =>
    rw [movesStep,
      moveStep_subthreshold s ax ay mv.1 mv.2.1 mv.2.2 hdown hmoving (hmoves mv (by simp))]
    exact ih (fun u hu => hmoves u (List.mem_cons_of_mem mv hu))

/-- C6: a press whose moves all stay below the drag threshold on the primary
axis releases as exactly a toggle, regardless of how many moves occurred or
how much time passed: the emitted command is `toggle` and the `opened` flag
flips (close if opened, open if closed). -/
theorem c6_subthreshold_release_toggles (s : DrawerState) (ax ay : ℚ)
    (moves : List (ℚ × ℚ × ℤ)) (now : ℤ)
    (hmoves : ∀ mv ∈ moves, primaryDisp s.side ax ay mv.1 mv.2.1 < s.threshold) :
    upCmd (movesStep (downStep s ax ay) moves) now = UpCmd.toggle ∧
    (upStep (movesStep (downStep s ax ay) moves) now).opened = !s.opened := by
  have hpress : movesStep (downStep s ax ay) moves = downStep s ax ay :=
    movesStep_subthreshold (downStep s ax ay) ax ay moves rfl rfl hmoves
  rw [hpress]
  constructor
  · simp [upCmd, downStep]
  · cases hb : s.opened <;>
      simp [upStep, upCmd, applyUpCmd, toggleStep, openStep, closeStep, downStep, hb,
        openAnimateStep, closeAnimateStep, getCurrent]

/-- C6 witness: two sub-threshold moves on the closed `baseState` drawer, then
a release at time 100 — the command is a toggle and the drawer opens. -/
theorem c6_subthreshold_release_toggles_witness :
    (∀ mv ∈ [((5 : ℚ), (0 : ℚ), (10 : ℤ)), (-5, 3, 15)],
      primaryDisp baseState.side 0 0 mv.1 mv.2.1 < baseState.threshold) ∧
    (upCmd (movesStep (downStep baseState 0 0) [(5, 0, 10), (-5, 3, 15)]) 100 = UpCmd.toggle ∧
      (upStep (movesStep (downStep baseState 0 0) [(5, 0, 10), (-5, 3, 15)]) 100).opened =
        !baseState.opened) :=
  ⟨by norm_num [primaryDisp, baseState, abs_of_pos, abs_neg],
   c6_subthreshold_release_toggles baseState 0 0 [(5, 0, 10), (-5, 3, 15)] 100
     (by norm_num [primaryDisp, baseState, abs_of_pos, abs_neg])⟩

/-- C7 counterexample: `_down` has no already-tracking guard.  Starting from
`c7state` (press anchored at (10, 20), one sample, drag confirmed), a second
press-start at (50, 60) changes the anchor, clears the trail and resets the
moving flag — it is not rejected. -/
theorem c7_second_press_not_rejected :
    ¬((downStep c7state 50 60).down = c7state.down ∧
      (downStep c7state 50 60).changes = c7state.changes ∧
      (downStep c7state 50 60).moving = c7state.moving) := by
  intro h
  have := h.2.2
  simp [downStep, c7state, baseState] at this

/-- C7 amended: a second press-start while one is active is processed like a
fresh press: it unconditionally overwrites the anchor with the new point,
clears the sample trail and resets the moving flag (the drawer's `opened`
flag, position and animation job are untouched). -/
theorem c7_second_press_restarts (s : DrawerState) (x y : ℚ) :
    (downStep s x y).down = some (x, y) ∧ (downStep s x y).changes = [] ∧
    (downStep s x y).moving = false ∧ (downStep s x y).opened = s.opened ∧
    (downStep s x y).divPos = s.divPos ∧ (downStep s x y).easing = s.easing := by
  simp [downStep]

/-- C8: with `auto := false`, a confirmed-drag release is inert (the else-if
guards the whole velocity/force-toggle logic, so only `down` is cleared), but
a tap still calls `toggle()` and the drawer opens — the tap path is not
guarded by `auto`, contradicting the option's own documentation
("automatically open and close the drawer based on acceleration or click"). -/
theorem c8_auto_false_tap_still_toggles :
    upCmd c8tapState 0 = UpCmd.toggle ∧
    (upStep c8tapState 0).opened = true ∧
    upCmd c8dragState 20 = UpCmd.idle ∧
    upStep c8dragState 20 = { c8dragState with down := none } := by
  refine ⟨?_, ?_, ?_, ?_⟩ <;>
    norm_num [upCmd, upStep, applyUpCmd, toggleStep, openStep, closeStep,
      openAnimateStep, closeAnimateStep, getCurrent, c8tapState, c8dragState, baseState]

/-- C9: `open` is guarded by `this.down || !this.opened`, so calling it on an
already-opened drawer with no active press is a no-op: the state — including
the animation job, the position and the `opened` flag — is returned
unchanged. -/
theorem c9_open_on_opened_noop (s : DrawerState) (noAnimate : Bool) (now : ℤ)
    (hopened : s.opened = true) (hdown : s.down = none) :
    openStep s noAnimate now = s := by
  rw [openStep, hdown, hopened]
  simp

/-- C9 witness: the statement instantiated at the settled-open `c9state`. -/
theorem c9_open_on_opened_noop_witness :
    c9state.opened = true ∧ c9state.down = none ∧
    openStep c9state true 0 = c9state :=
  ⟨rfl, rfl, c9_open_on_opened_noop c9state true 0 rfl rfl⟩

/-- Helper for C10: the two transcriptions of the backward walk agree. -/
theorem velocityScanInline_eq_velocityScan (now tr : ℤ) (L : List Sample) (cur : Sample) :
    velocityScanInline now tr L cur = velocityScan now tr L cur := by
  induction L generalizing cur with
  | nil => rfl
  | cons u rest ih =>
    rw [velocityScanInline, velocityScan]
    split
    · rfl
    · exact ih u

/-- C10: variant 1's inline release-velocity computation and variant 2's
`_getVelocity` are equivalent: on the same sample trail, current time and
recency window they select the same comparison sample and produce the same
`(deltaDistance, deltaTime)` pair, hence the same velocity. -/
theorem c10_inline_velocity_equals_getVelocity (changes : List Sample) (now timeRecent : ℤ) :
    (∀ last, selectCurrentInline changes now timeRecent last
        = selectCurrent changes now timeRecent last) ∧
    getVelocityPartsInline changes now timeRecent = getVelocityParts changes now timeRecent := by
  constructor
  · intro last
    unfold selectCurrentInline selectCurrent
    rw [velocityScanInline_eq_velocityScan]
  · unfold getVelocityPartsInline getVelocityParts selectCurrentInline selectCurrent
    cases changes.getLast? with
    | none => rfl
    | some last =>
      simp only [velocityScanInline_eq_velocityScan]

end Drawer
